import Mathlib

/-!
Shallow embedding of
`src/webapp/packages/plugin-connection-preconfigured/src/ConnectionDialog/ConnectionController.ts`
(cloudbeaver, preconfigured-connection dialog controller).

The controller is single-threaded UI glue: each action method is embedded
as a pure function from a controller state (plus an environment holding
the injected collaborators) to a new state together with the list of
externally observable events it emits (notifications, dialog openings,
the close callback).  Async suspension points are sequential in the
source, so sequential composition is a faithful model.
-/

namespace ConnectionDialog

/-- Driver descriptor; fields used by the controller
(`defaultAuthModel`, `anonymousAccess`). -/
structure DBDriver where
  defaultAuthModel : String
  anonymousAccess : Bool
  deriving Repr, DecidableEq

/-- A preconfigured data source (fields used: `id`, `driverId`). -/
structure DBSource where
  id : String
  driverId : String
  deriving Repr, DecidableEq

/-- Auth model descriptor returned by `dbAuthModelsResource.load`. -/
structure DatabaseAuthModel where
  id : String
  deriving Repr, DecidableEq

/-- Structured GraphQL-style error: `errorText` is the human-readable
message, `hasDetailsFlag` the result of its `hasDetails()` method. -/
structure GQLError where
  errorText : String
  hasDetailsFlag : Bool
  deriving Repr, DecidableEq

/-- A thrown JavaScript value: either a structured `GQLError` or any
other (generic) error. -/
inductive JsError where
  | gql (e : GQLError)
  | generic (msg : String)
  deriving Repr, DecidableEq

/-- Result of `basicConnectionService.openConnectionAsync` on success:
a connection descriptor with at least a `name`. -/
structure Connection where
  name : String
  deriving Repr, DecidableEq

/-- Shape `ConnectionConfig` from `@cloudbeaver/core-sdk` (not under `src/`).
The controller reads and writes `dataSourceId`, `authModelId` and
`credentials`.  Modelled from the spec: the type carries further
optional fields, which `getConnectionConfig` must not forward; they are
modelled abstractly as the field `rest`. -/
structure ConnectionConfig where
  dataSourceId : Option String
  authModelId : Option String
  credentials : List (String × String)
  rest : List (String × String)
  deriving Repr, DecidableEq

/-- Enum `ConnectionStep` of the source file. -/
inductive ConnectionStep where
  | DBSource
  | Connection
  deriving Repr, DecidableEq

/-- The observable and private fields of `ConnectionController`. -/
structure ControllerState where
  step : ConnectionStep
  isLoading : Bool
  isConnecting : Bool
  dbSource : Option DBSource
  authModel : Option DatabaseAuthModel
  config : ConnectionConfig
  hasDetails : Bool
  responseMessage : Option String
  exception : Option GQLError
  isDistructed : Bool
  deriving Repr, DecidableEq

/-- Externally observable side effect of an action: a call on the
notification service, the details-dialog service, or the stored
`onClose` callback. -/
inductive Event where
  | logInfo (title : String)
  | logException (err : JsError) (message : String)
  | openDetailsDialog (err : GQLError)
  | closed
  deriving Repr, DecidableEq

/-- The injected collaborators, abstracted over their observable
behaviour: the loaded lists/maps and the outcome of each async call. -/
structure Env where
  /-- The list `templateDataSourceListResource.data` after `loadAll`. -/
  dbSources : List DBSource
  /-- The map `dbDriverResource.data` after `loadAll`: driverId → driver. -/
  dbDrivers : List (String × DBDriver)
  /-- Outcome of `templateDataSourceListResource.loadAll()`. -/
  sourcesLoad : Except JsError Unit
  /-- Outcome of `dbDriverResource.loadAll()`. -/
  driversLoad : Except JsError Unit
  /-- Outcome of `dbAuthModelsResource.load(id)`. -/
  authModelLoad : String → Except JsError DatabaseAuthModel
  /-- Outcome of `basicConnectionService.openConnectionAsync(config)`. -/
  openConnection : ConnectionConfig → Except JsError Connection

/-- Initial field values of a fresh `ConnectionController`. -/
def initialState : ControllerState :=
  { step := ConnectionStep.DBSource
    isLoading := true
    isConnecting := false
    dbSource := none
    authModel := none
    config := { dataSourceId := none, authModelId := none,
                credentials := [], rest := [] }
    hasDetails := false
    responseMessage := none
    exception := none
    isDistructed := false }

/-- Lookup `this.dbDrivers.get(driverId)` on the driver map. -/
def lookupDriver (env : Env) (driverId : String) : Option DBDriver :=
  (env.dbDrivers.find? (fun p => p.1 == driverId)).map (fun p => p.2)

/-- Getter `dbDriver`: the driver matching the selected source, or
undefined when no source is selected or the driver id is absent. -/
def dbDriver (env : Env) (s : ControllerState) : Option DBDriver :=
  match s.dbSource with
  | none => none
  | some src => lookupDriver env src.driverId

/-- Embeds `destruct()`: sets the `isDistructed` flag. -/
def destruct (s : ControllerState) : ControllerState :=
  { s with isDistructed := true }

/-- Embeds `clearError()`: resets `responseMessage`, `hasDetails` and the held
exception. -/
def clearError (s : ControllerState) : ControllerState :=
  { s with responseMessage := none, hasDetails := false, exception := none }

/-- Embeds `showError(exception, message)`: a structured error on a
non-destructed controller populates the dialog error state; any other
case is forwarded to `notificationService.logException`. -/
def showError (s : ControllerState) (err : JsError) (message : String) :
    ControllerState × List Event :=
  match err with
  | JsError.gql e =>
      if !s.isDistructed then
        ({ s with responseMessage := some e.errorText
                  hasDetails := e.hasDetailsFlag
                  exception := some e }, [])
      else
        (s, [Event.logException err message])
  | JsError.generic _ => (s, [Event.logException err message])

/-- Embeds `onStep(step)`: sets `step` and clears the error state. -/
def onStep (s : ControllerState) (step : ConnectionStep) : ControllerState :=
  clearError { s with step := step }

/-- Embeds `onShowDetails()`: opens the details dialog when a structured
exception is held, otherwise does nothing. -/
def onShowDetails (s : ControllerState) : List Event :=
  match s.exception with
  | some e => [Event.openDetailsDialog e]
  | none => []

/-- Embeds `getConnectionConfig()`: builds a fresh config carrying only
`dataSourceId`, `authModelId` and `credentials` from the current
config. -/
def getConnectionConfig (s : ControllerState) : ConnectionConfig :=
  { dataSourceId := s.config.dataSourceId
    authModelId := s.config.authModelId
    credentials := s.config.credentials
    rest := [] }

/-- Embeds `setDBSourceDefaults()`: writes `dataSourceId`, `authModelId` and an
empty `credentials` map in place, leaving other config fields alone. -/
def setDBSourceDefaults (env : Env) (s : ControllerState) : ControllerState :=
  { s with config :=
      { s.config with
          dataSourceId := s.dbSource.map (fun src => src.id)
          authModelId := (dbDriver env s).map (fun d => d.defaultAuthModel)
          credentials := [] } }

/-- Embeds `onConnect()`: sets `isConnecting`, clears error state, opens the
connection with the minimal config; on success logs an info
notification and invokes the close callback, on failure routes the
thrown value to `showError`; `isConnecting` is reset in the `finally`
block. -/
def onConnect (env : Env) (s : ControllerState) : ControllerState × List Event :=
  let s1 := clearError { s with isConnecting := true }
  match env.openConnection (getConnectionConfig s1) with
  | Except.ok conn =>
      ({ s1 with isConnecting := false },
       [Event.logInfo ("Connection " ++ conn.name ++ " established"), Event.closed])
  | Except.error e =>
      let r := showError s1 e "Failed to establish connection"
      ({ r.1 with isConnecting := false }, r.2)

/-- Embeds `loadDBSources()`: awaits the two list loads, reporting a failure of
either through `logException`; the `finally` block resets `isLoading`. -/
def loadDBSources (env : Env) (s : ControllerState) : ControllerState × List Event :=
  match env.sourcesLoad with
  | Except.error e =>
      ({ s with isLoading := false },
       [Event.logException e "Can\x27t load database sources"])
  | Except.ok _ =>
      match env.driversLoad with
      | Except.error e =>
          ({ s with isLoading := false },
           [Event.logException e "Can\x27t load database sources"])
      | Except.ok _ => ({ s with isLoading := false }, [])

/-- Embeds `loadAuthModel()`: returns immediately when no driver is selected or
the driver allows anonymous access; otherwise loads the driver's
default auth model, reporting a failure through `logException`; the
`finally` block resets `isLoading`. -/
def loadAuthModel (env : Env) (s : ControllerState) : ControllerState × List Event :=
  match dbDriver env s with
  | none => (s, [])
  | some d =>
      if d.anonymousAccess then (s, [])
      else
        match env.authModelLoad d.defaultAuthModel with
        | Except.ok m => ({ s with authModel := some m, isLoading := false }, [])
        | Except.error e =>
            ({ s with isLoading := false },
             [Event.logException e "Can\x27t load driver auth model"])

/-- Embeds `init(onClose)`: stores the close callback and starts
`loadDBSources`. -/
def init (env : Env) (s : ControllerState) : ControllerState × List Event :=
  loadDBSources env s

/-- The state reached by `onDBSourceSelect(sourceId)` just before the
final auto-connect check: source looked up, auth model conditionally
loaded, error state cleared, config defaults set, step advanced. -/
def selectedState (env : Env) (s : ControllerState) (sourceId : String) :
    ControllerState :=
  let s1 := { s with dbSource := env.dbSources.find? (fun src => src.id == sourceId) }
  let s2 := (loadAuthModel env s1).1
  let s3 := clearError s2
  let s4 := setDBSourceDefaults env s3
  { s4 with step := ConnectionStep.Connection }

/-- Embeds `onDBSourceSelect(sourceId)`: looks up the source (the non-null
assertion is erased at runtime, so an absent id stores `undefined`),
loads the auth model, clears errors, resets config defaults, advances
the step, and auto-connects when `authModel` is unset. -/
def onDBSourceSelect (env : Env) (s : ControllerState) (sourceId : String) :
    ControllerState × List Event :=
  let s1 := { s with dbSource := env.dbSources.find? (fun src => src.id == sourceId) }
  let r1 := loadAuthModel env s1
  let s3 := clearError r1.1
  let s4 := setDBSourceDefaults env s3
  let s5 := { s4 with step := ConnectionStep.Connection }
  if s5.authModel.isNone then
    let r2 := onConnect env s5
    (r2.1, r1.2 ++ r2.2)
  else
    (s5, r1.2)

/-- Checks that a list of events consists solely of calls to
`notificationService.logException` (the generic notification path). -/
def onlyLogException (evs : List Event) : Bool :=
  evs.all (fun ev =>
    match ev with
    | Event.logException _ _ => true
    | _ => false)

/-- A driver requiring authentication, default auth model `basic`. -/
def demoDriver : DBDriver := { defaultAuthModel := "basic", anonymousAccess := false }

/-- A driver allowing anonymous access. -/
def anonDriver : DBDriver := { defaultAuthModel := "anon-model", anonymousAccess := true }

/-- The data source `pg1` of the end-to-end scenario, on driver
`postgres`. -/
def pg1 : DBSource := { id := "pg1", driverId := "postgres" }

/-- A data source whose driver allows anonymous access. -/
def anonSource : DBSource := { id := "s1", driverId := "drv" }

/-- An environment where every collaborator call succeeds. -/
def demoEnv : Env :=
  { dbSources := [pg1, anonSource]
    dbDrivers := [("postgres", demoDriver), ("drv", anonDriver)]
    sourcesLoad := Except.ok ()
    driversLoad := Except.ok ()
    authModelLoad := fun id => Except.ok { id := id }
    openConnection := fun _ => Except.ok { name := "demo" } }

/-- Like `demoEnv` but the connection opener throws a structured
error. -/
def failEnv : Env :=
  { demoEnv with
      openConnection := fun _ => Except.error (JsError.gql { errorText := "denied", hasDetailsFlag := true }) }

/-- Like `demoEnv` but the connection opener throws a generic error. -/
def genFailEnv : Env :=
  { demoEnv with
      openConnection := fun _ => Except.error (JsError.generic "socket closed") }

/-- Like `demoEnv` but with no loaded data sources. -/
def emptyEnv : Env := { demoEnv with dbSources := [] }

/-- A controller where an earlier selection already loaded an auth
model. -/
def staleState : ControllerState :=
  { initialState with authModel := some { id := "basic" } }

/- ------------------------------------------------------------------ -/
/- Structural lemmas about the embedded operations.                   -/
/- ------------------------------------------------------------------ -/

/-- Fields of the state that `showError` never writes. -/
theorem showError_fst_fields (s : ControllerState) (err : JsError) (msg : String) :
    (showError s err msg).1.authModel = s.authModel ∧
    (showError s err msg).1.config = s.config ∧
    (showError s err msg).1.step = s.step ∧
    (showError s err msg).1.dbSource = s.dbSource ∧
    (showError s err msg).1.isDistructed = s.isDistructed := by
  cases err with
  | gql e =>
      simp only [showError]
      split
      · exact ⟨rfl, rfl, rfl, rfl, rfl⟩
      · exact ⟨rfl, rfl, rfl, rfl, rfl⟩
  | generic m => exact ⟨rfl, rfl, rfl, rfl, rfl⟩

/-- Fields of the state that `onConnect` never writes. -/
theorem onConnect_fst_fields (env : Env) (s : ControllerState) :
    (onConnect env s).1.authModel = s.authModel ∧
    (onConnect env s).1.config = s.config ∧
    (onConnect env s).1.step = s.step ∧
    (onConnect env s).1.dbSource = s.dbSource := by
  have hs := showError_fst_fields (clearError { s with isConnecting := true })
  simp only [onConnect]
  cases ho : env.openConnection (getConnectionConfig (clearError { s with isConnecting := true })) with
  | ok c => exact ⟨rfl, rfl, rfl, rfl⟩
  | error e =>
      obtain ⟨h1, h2, h3, h4, _⟩ := hs e "Failed to establish connection"
      exact ⟨h1, h2, h3, h4⟩

/-- Fields of the state that `loadAuthModel` never writes. -/
theorem loadAuthModel_fst_fields (env : Env) (s : ControllerState) :
    (loadAuthModel env s).1.dbSource = s.dbSource ∧
    (loadAuthModel env s).1.config = s.config ∧
    (loadAuthModel env s).1.responseMessage = s.responseMessage ∧
    (loadAuthModel env s).1.hasDetails = s.hasDetails ∧
    (loadAuthModel env s).1.exception = s.exception ∧
    (loadAuthModel env s).1.isDistructed = s.isDistructed ∧
    (loadAuthModel env s).1.isConnecting = s.isConnecting ∧
    (loadAuthModel env s).1.step = s.step := by
  rcases hd : dbDriver env s with _ | d
  · simp [loadAuthModel, hd]
  · cases ha : d.anonymousAccess
    · rcases hm : env.authModelLoad d.defaultAuthModel with e | m <;>
        simp [loadAuthModel, hd, ha, hm]
    · simp [loadAuthModel, hd, ha]

/-- A loaded auth model survives `loadAuthModel`: the call either keeps
it or replaces it with a newly loaded model, never with `undefined`. -/
theorem loadAuthModel_keeps_isSome (env : Env) (s : ControllerState)
    (h : s.authModel.isSome = true) :
    (loadAuthModel env s).1.authModel.isSome = true := by
  rcases hd : dbDriver env s with _ | d
  · simpa [loadAuthModel, hd] using h
  · cases ha : d.anonymousAccess
    · rcases hm : env.authModelLoad d.defaultAuthModel with e | m <;>
        simp [loadAuthModel, hd, ha, hm, h]
    · simpa [loadAuthModel, hd, ha] using h

/-- Unfolding of `onDBSourceSelect` through `selectedState`. -/
theorem onDBSourceSelect_eq (env : Env) (s : ControllerState) (sid : String) :
    onDBSourceSelect env s sid =
      if (selectedState env s sid).authModel.isNone then
        ((onConnect env (selectedState env s sid)).1,
         (loadAuthModel env
            { s with dbSource := env.dbSources.find? (fun src => src.id == sid) }).2
           ++ (onConnect env (selectedState env s sid)).2)
      else
        (selectedState env s sid,
         (loadAuthModel env
            { s with dbSource := env.dbSources.find? (fun src => src.id == sid) }).2) := rfl

/-- Field values of the state reached by a selection just before the
auto-connect check. -/
theorem selectedState_fields (env : Env) (s : ControllerState) (sid : String) :
    (selectedState env s sid).dbSource = env.dbSources.find? (fun src => src.id == sid) ∧
    (selectedState env s sid).step = ConnectionStep.Connection ∧
    (selectedState env s sid).responseMessage = none ∧
    (selectedState env s sid).hasDetails = false ∧
    (selectedState env s sid).exception = none ∧
    (selectedState env s sid).isDistructed = s.isDistructed ∧
    (selectedState env s sid).config =
      { s.config with
          dataSourceId := (env.dbSources.find? (fun src => src.id == sid)).map
            (fun src => src.id)
          authModelId := ((env.dbSources.find? (fun src => src.id == sid)).bind
            (fun src => lookupDriver env src.driverId)).map (fun d => d.defaultAuthModel)
          credentials := [] } := by
  obtain ⟨h1, h2, _, _, _, h6, _, _⟩ :=
    loadAuthModel_fst_fields env
      { s with dbSource := env.dbSources.find? (fun src => src.id == sid) }
  have key : ∀ (osrc : Option DBSource) (t : ControllerState),
      t.dbSource = osrc → t.config = s.config →
      ({ t.config with
          dataSourceId := t.dbSource.map (fun src => src.id)
          authModelId := (dbDriver env t).map (fun d => d.defaultAuthModel)
          credentials := [] } : ConnectionConfig) =
      { s.config with
          dataSourceId := osrc.map (fun src => src.id)
          authModelId := (osrc.bind (fun src => lookupDriver env src.driverId)).map
            (fun d => d.defaultAuthModel)
          credentials := [] } := by
    intro osrc t ht htc
    rcases osrc with _ | src <;> simp [dbDriver, ht, htc]
  exact ⟨h1, rfl, rfl, rfl, rfl, h6,
    key (env.dbSources.find? (fun src => src.id == sid)) _ h1 h2⟩

/- ------------------------------------------------------------------ -/
/- Claims.                                                            -/
/- ------------------------------------------------------------------ -/

/-- C9: in every controller state, `getConnectionConfig()` returns a
config holding exactly the current `dataSourceId`, `authModelId` and
`credentials` of `config`, and forwards no other config field (the
abstract remainder is empty in the result). -/
theorem getConnectionConfig_roundtrip (s : ControllerState) :
    getConnectionConfig s =
      { dataSourceId := s.config.dataSourceId
        authModelId := s.config.authModelId
        credentials := s.config.credentials
        rest := [] } := rfl

/-- C4: once the `isDistructed` flag is set, delivering any error value
(structured or generic) to `showError` leaves `responseMessage`,
`hasDetails` and the privately held exception unchanged. -/
theorem destructed_showError_preserves_error_state (s : ControllerState)
    (err : JsError) (msg : String) (h : s.isDistructed = true) :
    (showError s err msg).1.responseMessage = s.responseMessage ∧
    (showError s err msg).1.hasDetails = s.hasDetails ∧
    (showError s err msg).1.exception = s.exception := by
  cases err with
  | gql e => simp [showError, h]
  | generic m => simp [showError]

/-- Witness for C4: a destructed fresh controller receiving a late
structured connect failure keeps its error fields. -/
theorem destructed_showError_preserves_error_state_witness :
    (destruct initialState).isDistructed = true ∧
    ((showError (destruct initialState)
        (JsError.gql { errorText := "late", hasDetailsFlag := true })
        "Failed to establish connection").1.responseMessage
        = (destruct initialState).responseMessage ∧
     (showError (destruct initialState)
        (JsError.gql { errorText := "late", hasDetailsFlag := true })
        "Failed to establish connection").1.hasDetails
        = (destruct initialState).hasDetails ∧
     (showError (destruct initialState)
        (JsError.gql { errorText := "late", hasDetailsFlag := true })
        "Failed to establish connection").1.exception
        = (destruct initialState).exception) :=
  ⟨rfl, destructed_showError_preserves_error_state (destruct initialState)
      (JsError.gql { errorText := "late", hasDetailsFlag := true })
      "Failed to establish connection" rfl⟩

/-- C8: every failure of the initial list loads or of the auth-model
load leaves the structured dialog error state (`responseMessage`,
`hasDetails`, held exception) untouched and emits only
`logException` notifications, whatever the thrown value is. -/
theorem load_failures_use_generic_notification_path (env : Env) (s : ControllerState) :
    (loadDBSources env s).1.responseMessage = s.responseMessage ∧
    (loadDBSources env s).1.hasDetails = s.hasDetails ∧
    (loadDBSources env s).1.exception = s.exception ∧
    onlyLogException (loadDBSources env s).2 = true ∧
    (loadAuthModel env s).1.responseMessage = s.responseMessage ∧
    (loadAuthModel env s).1.hasDetails = s.hasDetails ∧
    (loadAuthModel env s).1.exception = s.exception ∧
    onlyLogException (loadAuthModel env s).2 = true := by
  obtain ⟨_, _, p3, p4, p5, _, _, _⟩ := loadAuthModel_fst_fields env s
  have hLD : (loadDBSources env s).1.responseMessage = s.responseMessage ∧
      (loadDBSources env s).1.hasDetails = s.hasDetails ∧
      (loadDBSources env s).1.exception = s.exception ∧
      onlyLogException (loadDBSources env s).2 = true := by
    rcases h1 : env.sourcesLoad with e | u
    · simp [loadDBSources, h1, onlyLogException]
    · rcases h2 : env.driversLoad with e | u2 <;>
        simp [loadDBSources, h1, h2, onlyLogException]
  have hLA : onlyLogException (loadAuthModel env s).2 = true := by
    rcases hd : dbDriver env s with _ | d
    · simp [loadAuthModel, hd, onlyLogException]
    · cases ha : d.anonymousAccess
      · rcases hm : env.authModelLoad d.defaultAuthModel with e | m <;>
          simp [loadAuthModel, hd, ha, hm, onlyLogException]
      · simp [loadAuthModel, hd, ha, onlyLogException]
  exact ⟨hLD.1, hLD.2.1, hLD.2.2.1, hLD.2.2.2, p3, p4, p5, hLA⟩

/-- C3: selecting a loaded source whose driver requires authentication
loads the driver's default auth model into `authModel` and stops at the
Connect step with the defaulted config, emitting no event (in
particular, `onConnect` is not invoked and `isConnecting` is
untouched). -/
theorem auth_select_loads_model_and_stops_at_connect
    (env : Env) (s : ControllerState) (sid : String)
    (src : DBSource) (d : DBDriver) (m : DatabaseAuthModel)
    (hf : env.dbSources.find? (fun x => x.id == sid) = some src)
    (hd : lookupDriver env src.driverId = some d)
    (ha : d.anonymousAccess = false)
    (hm : env.authModelLoad d.defaultAuthModel = Except.ok m) :
    onDBSourceSelect env s sid =
      ({ s with
          dbSource := some src
          authModel := some m
          isLoading := false
          responseMessage := none
          hasDetails := false
          exception := none
          step := ConnectionStep.Connection
          config := { s.config with
              dataSourceId := some src.id
              authModelId := some d.defaultAuthModel
              credentials := [] } }, []) := by
  simp [onDBSourceSelect, loadAuthModel, dbDriver, clearError, setDBSourceDefaults,
    hf, hd, ha, hm]

/-- Witness for C3, the end-to-end scenario of the spec: selecting
`pg1` (driver `postgres`, `anonymousAccess = false`, default auth model
`basic`) on a fresh controller ends at the Connect step with
`config = {dataSourceId := pg1, authModelId := basic, credentials := {}}`
and the auth model loaded. -/
theorem auth_select_loads_model_and_stops_at_connect_witness :
    demoEnv.dbSources.find? (fun x => x.id == "pg1") = some pg1 ∧
    lookupDriver demoEnv "postgres" = some demoDriver ∧
    demoDriver.anonymousAccess = false ∧
    demoEnv.authModelLoad "basic" = Except.ok { id := "basic" } ∧
    onDBSourceSelect demoEnv initialState "pg1" =
      ({ initialState with
          dbSource := some pg1
          authModel := some { id := "basic" }
          isLoading := false
          responseMessage := none
          hasDetails := false
          exception := none
          step := ConnectionStep.Connection
          config := { initialState.config with
              dataSourceId := some "pg1"
              authModelId := some "basic"
              credentials := [] } }, []) :=
  ⟨rfl, rfl, rfl, rfl,
    auth_select_loads_model_and_stops_at_connect demoEnv initialState "pg1"
      pg1 demoDriver { id := "basic" } rfl rfl rfl rfl⟩

/-- C2 counterexample: a sourceId absent from the (empty) source list
does not make `onDBSourceSelect` fail hard; the call completes
normally — the TypeScript non-null assertion on `find(...)!` is erased
at runtime and every later access is optional-chained — leaving
`dbSource` undefined and still advancing to the Connect step. -/
theorem absent_source_select_completes_normally_example :
    emptyEnv.dbSources.find? (fun x => x.id == "missing") = none ∧
    (onDBSourceSelect emptyEnv initialState "missing").1.dbSource = none ∧
    (onDBSourceSelect emptyEnv initialState "missing").1.step = ConnectionStep.Connection :=
  ⟨rfl, rfl, rfl⟩

/-- C2 amended: for every sourceId absent from the loaded source list,
`onDBSourceSelect` completes normally (no failure), storing `undefined`
in `dbSource` and still advancing to the Connect step. -/
theorem absent_source_select_completes_normally
    (env : Env) (s : ControllerState) (sid : String)
    (hf : env.dbSources.find? (fun x => x.id == sid) = none) :
    (onDBSourceSelect env s sid).1.dbSource = none ∧
    (onDBSourceSelect env s sid).1.step = ConnectionStep.Connection := by
  obtain ⟨f1, f2, _, _, _, _, _⟩ := selectedState_fields env s sid
  rw [onDBSourceSelect_eq]
  split
  · obtain ⟨_, _, o3, o4⟩ := onConnect_fst_fields env (selectedState env s sid)
    exact ⟨by rw [o4, f1, hf], by rw [o3, f2]⟩
  · exact ⟨by rw [f1, hf], f2⟩

/-- Witness for C2 (amended): concrete absent id on the empty list. -/
theorem absent_source_select_completes_normally_witness :
    emptyEnv.dbSources.find? (fun x => x.id == "zzz") = none ∧
    (onDBSourceSelect emptyEnv initialState "zzz").1.dbSource = none ∧
    (onDBSourceSelect emptyEnv initialState "zzz").1.step = ConnectionStep.Connection := by
  have h := absent_source_select_completes_normally emptyEnv initialState "zzz" rfl
  exact ⟨rfl, h.1, h.2⟩

/-- C10: selecting an absent sourceId stores `undefined` in `dbSource`,
skips auth-model loading (`authModel` is unchanged), resets the config
to all-undefined defaults with empty credentials, advances the step to
Connect, and — when `authModel` is unset — invokes `onConnect` with
that undefined-valued minimal config. -/
theorem absent_source_select_state_and_autoconnect
    (env : Env) (s : ControllerState) (sid : String)
    (hf : env.dbSources.find? (fun x => x.id == sid) = none) :
    (selectedState env s sid).dbSource = none ∧
    (selectedState env s sid).authModel = s.authModel ∧
    (selectedState env s sid).config =
      { s.config with dataSourceId := none, authModelId := none, credentials := [] } ∧
    (selectedState env s sid).step = ConnectionStep.Connection ∧
    (s.authModel = none →
      onDBSourceSelect env s sid = onConnect env (selectedState env s sid) ∧
      getConnectionConfig (selectedState env s sid) =
        { dataSourceId := none, authModelId := none, credentials := [], rest := [] }) := by
  obtain ⟨f1, f2, _, _, _, _, f7⟩ := selectedState_fields env s sid
  have hdd : dbDriver env
      { s with dbSource := env.dbSources.find? (fun src => src.id == sid) } = none := by
    simp [dbDriver, hf]
  have hload : loadAuthModel env
      { s with dbSource := env.dbSources.find? (fun src => src.id == sid) } =
      ({ s with dbSource := env.dbSources.find? (fun src => src.id == sid) }, []) := by
    simp [loadAuthModel, hdd]
  have hAM : (selectedState env s sid).authModel = s.authModel := by
    show (loadAuthModel env
      { s with dbSource := env.dbSources.find? (fun src => src.id == sid) }).1.authModel
        = s.authModel
    rw [hload]
  have hcfg : (selectedState env s sid).config =
      { s.config with dataSourceId := none, authModelId := none, credentials := [] } := by
    rw [f7, hf]; rfl
  refine ⟨f1.trans hf, hAM, hcfg, f2, ?_⟩
  intro h4
  constructor
  · rw [onDBSourceSelect_eq, hload]
    simp [hAM, h4]
  · simp [getConnectionConfig, hcfg]

/-- Witness for C10: absent id `missing` on the empty list, fresh
controller. -/
theorem absent_source_select_state_and_autoconnect_witness :
    emptyEnv.dbSources.find? (fun x => x.id == "missing") = none ∧
    initialState.authModel = none ∧
    ((selectedState emptyEnv initialState "missing").dbSource = none ∧
     (selectedState emptyEnv initialState "missing").authModel = none ∧
     (selectedState emptyEnv initialState "missing").config =
       { initialState.config with
           dataSourceId := none, authModelId := none, credentials := [] } ∧
     (selectedState emptyEnv initialState "missing").step = ConnectionStep.Connection ∧
     onDBSourceSelect emptyEnv initialState "missing" =
       onConnect emptyEnv (selectedState emptyEnv initialState "missing") ∧
     getConnectionConfig (selectedState emptyEnv initialState "missing") =
       { dataSourceId := none, authModelId := none, credentials := [], rest := [] }) := by
  have h := absent_source_select_state_and_autoconnect emptyEnv initialState "missing" rfl
  exact ⟨rfl, rfl, h.1, h.2.1, h.2.2.1, h.2.2.2.1, (h.2.2.2.2 rfl).1, (h.2.2.2.2 rfl).2⟩

/-- C6: immediately after every completed `onDBSourceSelect`, the
config credentials are the empty map; and when the selected source and
its driver are loaded, `config.dataSourceId` is the source id and
`config.authModelId` the driver's default auth model id. -/
theorem select_resets_config_defaults (env : Env) (s : ControllerState) (sid : String) :
    (onDBSourceSelect env s sid).1.config.credentials = [] ∧
    (∀ src, env.dbSources.find? (fun x => x.id == sid) = some src →
      (onDBSourceSelect env s sid).1.config.dataSourceId = some src.id ∧
      ∀ d, lookupDriver env src.driverId = some d →
        (onDBSourceSelect env s sid).1.config.authModelId = some d.defaultAuthModel) := by
  obtain ⟨_, _, _, _, _, _, f7⟩ := selectedState_fields env s sid
  have hc : (onDBSourceSelect env s sid).1.config = (selectedState env s sid).config := by
    rw [onDBSourceSelect_eq]
    split
    · exact (onConnect_fst_fields env (selectedState env s sid)).2.1
    · rfl
  rw [hc, f7]
  exact ⟨rfl, fun src hsrc => ⟨by simp [hsrc], fun d hd => by simp [hsrc, hd]⟩⟩

/-- Witness for C6: selecting `pg1` over a state whose credentials were
populated by an earlier selection leaves empty credentials and the
defaulted ids. -/
theorem select_resets_config_defaults_witness :
    demoEnv.dbSources.find? (fun x => x.id == "pg1") = some pg1 ∧
    lookupDriver demoEnv "postgres" = some demoDriver ∧
    (onDBSourceSelect demoEnv
      { initialState with
          config := { initialState.config with credentials := [("user", "bob")] } }
      "pg1").1.config.credentials = [] ∧
    (onDBSourceSelect demoEnv
      { initialState with
          config := { initialState.config with credentials := [("user", "bob")] } }
      "pg1").1.config.dataSourceId = some "pg1" ∧
    (onDBSourceSelect demoEnv
      { initialState with
          config := { initialState.config with credentials := [("user", "bob")] } }
      "pg1").1.config.authModelId = some "basic" := by
  have h := select_resets_config_defaults demoEnv
    { initialState with
        config := { initialState.config with credentials := [("user", "bob")] } } "pg1"
  have h2 := h.2 pg1 rfl
  exact ⟨rfl, rfl, h.1, h2.1, h2.2 demoDriver rfl⟩

/-- C5: once `authModel` holds a loaded model, none of the operations
`onDBSourceSelect`, `setDBSourceDefaults`, `onStep`, `onConnect`,
`destruct` ever resets it to `undefined` — a new selection can replace
it with a freshly loaded model but never clears it, so the
auto-connect check reads the stale value. -/
theorem authModel_once_set_never_cleared (env : Env) (s : ControllerState)
    (sid : String) (st : ConnectionStep) (h : s.authModel.isSome = true) :
    (onDBSourceSelect env s sid).1.authModel.isSome = true ∧
    (setDBSourceDefaults env s).authModel.isSome = true ∧
    (onStep s st).authModel.isSome = true ∧
    (onConnect env s).1.authModel.isSome = true ∧
    (destruct s).authModel.isSome = true := by
  refine ⟨?_, h, h, ?_, h⟩
  · have h1 : (selectedState env s sid).authModel.isSome = true :=
      loadAuthModel_keeps_isSome env
        { s with dbSource := env.dbSources.find? (fun src => src.id == sid) } h
    rw [onDBSourceSelect_eq]
    split
    · show (onConnect env (selectedState env s sid)).1.authModel.isSome = true
      rw [(onConnect_fst_fields env (selectedState env s sid)).1]
      exact h1
    · exact h1
  · rw [(onConnect_fst_fields env s).1]
    exact h

/-- Witness for C5: a controller holding a previously loaded auth model
keeps one through each operation. -/
theorem authModel_once_set_never_cleared_witness :
    staleState.authModel.isSome = true ∧
    ((onDBSourceSelect demoEnv staleState "pg1").1.authModel.isSome = true ∧
     (setDBSourceDefaults demoEnv staleState).authModel.isSome = true ∧
     (onStep staleState ConnectionStep.Connection).authModel.isSome = true ∧
     (onConnect demoEnv staleState).1.authModel.isSome = true ∧
     (destruct staleState).authModel.isSome = true) :=
  ⟨rfl, authModel_once_set_never_cleared demoEnv staleState "pg1"
      ConnectionStep.Connection rfl⟩

/-- C1 counterexample, refuting "regardless of the controller's prior
state": on a controller whose earlier selection loaded an auth model
(`staleState`), selecting source `s1`, whose driver allows anonymous
access, emits no event at all — in particular neither the success
notification nor the dialog close that `onConnect` would produce under
`demoEnv`, whose connection opener always succeeds — so the connect
action is not invoked; the stale model is still in place afterwards. -/
theorem stale_auth_model_blocks_anonymous_autoconnect :
    lookupDriver demoEnv "drv" = some anonDriver ∧
    anonDriver.anonymousAccess = true ∧
    staleState.authModel = some { id := "basic" } ∧
    (onDBSourceSelect demoEnv staleState "s1").2 = [] ∧
    (onDBSourceSelect demoEnv staleState "s1").1.authModel = some { id := "basic" } ∧
    (onDBSourceSelect demoEnv staleState "s1").1.isConnecting = false :=
  ⟨rfl, rfl, rfl, rfl, rfl, rfl⟩

/-- C1 amended: selecting a loaded source whose driver allows anonymous
access skips auth-model loading and automatically invokes the connect
action, provided no auth model is currently loaded (`authModel`
unset); the auto-connect condition reads the current `authModel`, so
the behaviour is not independent of prior state. -/
theorem anonymous_select_autoconnects_when_no_auth_model
    (env : Env) (s : ControllerState) (sid : String) (src : DBSource) (d : DBDriver)
    (hf : env.dbSources.find? (fun x => x.id == sid) = some src)
    (hd : lookupDriver env src.driverId = some d)
    (ha : d.anonymousAccess = true)
    (h4 : s.authModel = none) :
    (selectedState env s sid).authModel = none ∧
    onDBSourceSelect env s sid = onConnect env (selectedState env s sid) := by
  have hdd : dbDriver env
      { s with dbSource := env.dbSources.find? (fun x => x.id == sid) } = some d := by
    simp [dbDriver, hf, hd]
  have hload : loadAuthModel env
      { s with dbSource := env.dbSources.find? (fun x => x.id == sid) } =
      ({ s with dbSource := env.dbSources.find? (fun x => x.id == sid) }, []) := by
    simp [loadAuthModel, hdd, ha]
  have hAM : (selectedState env s sid).authModel = none := by
    show (loadAuthModel env
      { s with dbSource := env.dbSources.find? (fun x => x.id == sid) }).1.authModel = none
    rw [hload]
    exact h4
  refine ⟨hAM, ?_⟩
  rw [onDBSourceSelect_eq, hload]
  simp [hAM]

/-- Witness for C1 (amended): on a fresh controller, selecting the
anonymous source `s1` behaves as an immediate `onConnect`. -/
theorem anonymous_select_autoconnects_when_no_auth_model_witness :
    demoEnv.dbSources.find? (fun x => x.id == "s1") = some anonSource ∧
    lookupDriver demoEnv "drv" = some anonDriver ∧
    anonDriver.anonymousAccess = true ∧
    initialState.authModel = none ∧
    ((selectedState demoEnv initialState "s1").authModel = none ∧
     onDBSourceSelect demoEnv initialState "s1" =
       onConnect demoEnv (selectedState demoEnv initialState "s1")) :=
  ⟨rfl, rfl, rfl, rfl,
    anonymous_select_autoconnects_when_no_auth_model demoEnv initialState "s1"
      anonSource anonDriver rfl rfl rfl rfl⟩

/-- C7: a failed connect attempt on a non-destructed controller routes
a structured error into the dialog error state (`responseMessage`,
`hasDetails`, held exception, no notification), while a generic error
leaves `responseMessage` cleared (null) and is forwarded to the
notification service with the fallback message. -/
theorem onConnect_error_routing (env : Env) (s : ControllerState)
    (h0 : s.isDistructed = false) :
    (∀ e : GQLError,
      env.openConnection (getConnectionConfig s) = Except.error (JsError.gql e) →
      (onConnect env s).1.responseMessage = some e.errorText ∧
      (onConnect env s).1.hasDetails = e.hasDetailsFlag ∧
      (onConnect env s).1.exception = some e ∧
      (onConnect env s).2 = []) ∧
    (∀ msg : String,
      env.openConnection (getConnectionConfig s) = Except.error (JsError.generic msg) →
      (onConnect env s).1.responseMessage = none ∧
      (onConnect env s).1.hasDetails = false ∧
      (onConnect env s).1.exception = none ∧
      (onConnect env s).2 =
        [Event.logException (JsError.generic msg) "Failed to establish connection"]) := by
  constructor
  · intro e he
    have he2 : env.openConnection
        (getConnectionConfig (clearError { s with isConnecting := true })) =
        Except.error (JsError.gql e) := he
    simp only [onConnect, he2]
    simp [showError, clearError, h0]
  · intro msg hm
    have hm2 : env.openConnection
        (getConnectionConfig (clearError { s with isConnecting := true })) =
        Except.error (JsError.generic msg) := hm
    simp only [onConnect, hm2]
    simp [showError, clearError]

/-- Witness for C7: a structured `denied` error from the opener lands
in the dialog error state of a fresh controller. -/
theorem onConnect_error_routing_witness :
    initialState.isDistructed = false ∧
    failEnv.openConnection (getConnectionConfig initialState) =
      Except.error (JsError.gql { errorText := "denied", hasDetailsFlag := true }) ∧
    ((onConnect failEnv initialState).1.responseMessage = some "denied" ∧
     (onConnect failEnv initialState).1.hasDetails = true ∧
     (onConnect failEnv initialState).1.exception =
       some { errorText := "denied", hasDetailsFlag := true } ∧
     (onConnect failEnv initialState).2 = []) := by
  have h := (onConnect_error_routing failEnv initialState rfl).1
    { errorText := "denied", hasDetailsFlag := true } rfl
  exact ⟨rfl, rfl, h⟩

end ConnectionDialog

